import Mathlib

/-!
Shallow embedding of `src/azurerm/resource_arm_logic_app_workflow.go`
(Terraform provider resource for Azure Logic App Workflows).

Each CRUD handler is embedded as a pure function from the local resource
data and the outcomes of its remote SDK calls (passed in program order) to
a `RunResult`: the trace of lock/remote calls it issued together with the
final outcome (success with updated local state, an error, or a Go panic
from an unchecked dynamic type assertion).
-/

namespace LogicApp

/-- Go dynamic values (`interface` values) as they occur in the workflow
definition document and in parameter values. -/
inductive GoValue where
  | str (s : String)
  | vmap (entries : List (String × GoValue))
  | other
deriving Repr

/-- `logic.ParameterType`: the resource only ever uses the string type. -/
inductive ParameterType where
  | string
deriving DecidableEq, Repr

/-- `logic.WorkflowParameter`: a typed parameter value. -/
structure WorkflowParameter where
  type : ParameterType
  value : GoValue
deriving Repr

/-- `logic.WorkflowProperties` (the fields this resource touches).
`parameters` models `map[string]*logic.WorkflowParameter`, so an entry may
hold a nil pointer (`none`). -/
structure WorkflowProperties where
  definition : Option GoValue
  parameters : List (String × Option WorkflowParameter)
  accessEndpoint : Option String
deriving Repr

/-- `logic.Workflow` (the fields this resource touches). -/
structure Workflow where
  id : Option String
  name : Option String
  location : Option String
  workflowProperties : Option WorkflowProperties
  tags : List (String × Option String)
deriving Repr

/-- The Terraform resource data `d`: the stored id plus the configured /
computed attributes of the `azurerm_logic_app_workflow` schema. -/
structure ResourceData where
  id : String
  name : String
  resourceGroupName : String
  location : String
  parameters : List (String × String)
  workflowSchema : String
  workflowVersion : String
  tags : List (String × String)
  accessEndpoint : Option String
deriving Repr

/-- Classification of a failing remote call: `utils.ResponseWasNotFound`
distinguishes not-found responses from every other failure. -/
inductive RemoteFailure where
  | notFound
  | other
deriving DecidableEq, Repr

/-- Errors returned by the handlers, classified as in the specification:
malformed stored id, remote failure (with operation / name / resource-group
context), or the nil-`WorkflowProperties` abort in Update. -/
inductive AppError where
  | invalidIdentifier
  | remoteError (operation name resourceGroup : String)
  | nilWorkflowProperties
deriving DecidableEq, Repr

/-- One observable action of a handler: acquiring / releasing the named
lock, or one of the three remote SDK calls (`CreateOrUpdate` carries the
request body that was sent). -/
inductive RemoteCall where
  | lockByName (name resource : String)
  | unlockByName (name resource : String)
  | createOrUpdate (resourceGroup name : String) (w : Workflow)
  | get (resourceGroup name : String)
  | delete (resourceGroup name : String)
deriving Repr

/-- Outcome of a handler invocation: normal return with the updated
resource data, an error return (carrying the resource data as it stands at
the return), or a runtime panic from a failed dynamic type assertion. -/
inductive Outcome where
  | ok (d : ResourceData)
  | error (e : AppError) (d : ResourceData)
  | panic
deriving Repr

/-- A handler run: the calls it made, in order, and its outcome. -/
structure RunResult where
  trace : List RemoteCall
  outcome : Outcome
deriving Repr

/-- `var logicAppResourceName = "azurerm_logic_app"` -/
def logicAppResourceName : String := "azurerm_logic_app"

/-- Default of the `workflow_schema` attribute in the resource schema. -/
def defaultWorkflowSchema : String :=
  "https://schema.management.azure.com/providers/Microsoft.Logic/schemas/2016-06-01/workflowdefinition.json#"

/-- Default of the `workflow_version` attribute in the resource schema. -/
def defaultWorkflowVersion : String := "1.0.0.0"

/-- Modelled from the spec: `azureRMNormalizeLocation` is defined outside
this source file; the spec describes it only as producing a "normalized
location" (canonical lowercase, space-free Azure region name). -/
def azureRMNormalizeLocation (s : String) : String :=
  ((s.toList.filter (fun c => c ≠ ' ')).map Char.toLower).asString

/-- Modelled from the spec: `expandTags` is defined outside this source
file; it converts the configured string tag mapping into the remote tag
mapping of string pointers. -/
def expandTags (tags : List (String × String)) : List (String × Option String) :=
  tags.map (fun kv => (kv.1, some kv.2))

/-- Modelled from the spec: `flattenAndSetTags` is defined outside this
source file; per the spec Read "always refreshes tags" from the remote
object, dropping nil pointers. -/
def flattenAndSetTags (tags : List (String × Option String)) (d : ResourceData) :
    ResourceData :=
  { d with tags := tags.filterMap (fun kv => kv.2.map (fun v => (kv.1, v))) }

/-- A parsed ARM resource id: the resource group plus the key/value path
segments (`id.Path` in the Go code). -/
structure ResourceID where
  resourceGroup : String
  path : List (String × String)
deriving DecidableEq, Repr

/-- Split a character list on the slash separator (the accumulator holds
the current segment, reversed). -/
def splitOnSlash : List Char → List Char → List String
  | [], acc => [acc.reverse.asString]
  | c :: rest, acc =>
    if c = '/' then acc.reverse.asString :: splitOnSlash rest []
    else splitOnSlash rest (c :: acc)

/-- Pair up the segments of an ARM path into key/value pairs; an odd
number of segments is malformed. -/
def pairSegments : List String → Option (List (String × String))
  | [] => some []
  | [_] => none
  | k :: v :: rest => (pairSegments rest).map (fun ps => (k, v) :: ps)

/-- Modelled from the spec: `parseAzureResourceID` is defined outside this
source file; the spec says the stored id is the ARM resource path "from
which resource group and workflow name are recoverable by parsing", with
malformed ids rejected as `InvalidIdentifier`. -/
def parseAzureResourceID (id : String) : Except AppError ResourceID :=
  match pairSegments ((splitOnSlash id.toList []).filter (fun s => s ≠ "")) with
  | none => .error .invalidIdentifier
  | some ps =>
    match ps.lookup "resourceGroups" with
    | none => .error .invalidIdentifier
    | some rg => .ok { resourceGroup := rg, path := ps }

/-- Go's `id.Path["workflows"]`: map indexing with the zero value `""` for
a missing key. -/
def lookupStr (m : List (String × String)) (k : String) : String :=
  (m.lookup k).getD ""

/-- `expandLogicAppWorkflowParameters`: every configured value is wrapped
as a string-typed `WorkflowParameter` behind a non-nil pointer. -/
def expandLogicAppWorkflowParameters (input : List (String × String)) :
    List (String × Option WorkflowParameter) :=
  input.map (fun kv =>
    (kv.1, some { type := ParameterType.string, value := GoValue.str kv.2 }))

/-- `flattenLogicAppWorkflowParameters`: skips nil pointers and asserts
`v.Value.(string)` without a comma-ok form, so a non-string value panics;
the panic is modelled as `none`. -/
def flattenLogicAppWorkflowParameters :
    List (String × Option WorkflowParameter) → Option (List (String × String))
  | [] => some []
  | (k, v) :: rest =>
    match flattenLogicAppWorkflowParameters rest with
    | none => none
    | some out =>
      match v with
      | none => some out
      | some p =>
        match p.value with
        | GoValue.str s => some ((k, s) :: out)
        | _ => none

/-- `resourceArmLogicAppWorkflowRead`, with the outcome of its single
`client.Get` call supplied as `getResult`.  Go control flow, in order:
parse the stored id (propagating a parse error); issue the Get; on a
not-found failure clear the id and return nil; on any other failure return
an error; otherwise set name / resource group / normalized location, then
(when `WorkflowProperties` is non-nil) flatten and set parameters (which
panics on a non-string parameter value), set the access endpoint, and —
when the definition dynamically is a `map[string]interface` value — assert
`v["$schema"]` and `v["contentVersion"]` to strings (panicking when either
is absent or not a string) and set schema / version; finally refresh tags. -/
def resourceArmLogicAppWorkflowRead (d : ResourceData)
    (getResult : Except RemoteFailure Workflow) : RunResult :=
  match parseAzureResourceID d.id with
  | .error e => { trace := [], outcome := .error e d }
  | .ok rid =>
    let resourceGroup := rid.resourceGroup
    let name := lookupStr rid.path "workflows"
    let trace := [RemoteCall.get resourceGroup name]
    match getResult with
    | .error RemoteFailure.notFound =>
      { trace := trace, outcome := .ok { d with id := "" } }
    | .error RemoteFailure.other =>
      { trace := trace, outcome := .error (.remoteError "read" name resourceGroup) d }
    | .ok resp =>
      let d1 : ResourceData :=
        { d with name := resp.name.getD "", resourceGroupName := resourceGroup }
      let d2 : ResourceData :=
        match resp.location with
        | some location => { d1 with location := azureRMNormalizeLocation location }
        | none => d1
      match resp.workflowProperties with
      | none => { trace := trace, outcome := .ok (flattenAndSetTags resp.tags d2) }
      | some props =>
        match flattenLogicAppWorkflowParameters props.parameters with
        | none => { trace := trace, outcome := .panic }
        | some parameters =>
          let d3 : ResourceData :=
            { d2 with parameters := parameters, accessEndpoint := props.accessEndpoint }
          match props.definition with
          | none => { trace := trace, outcome := .ok (flattenAndSetTags resp.tags d3) }
          | some defn =>
            match defn with
            | GoValue.vmap entries =>
              match entries.lookup "$schema", entries.lookup "contentVersion" with
              | some (GoValue.str schemaVal), some (GoValue.str versionVal) =>
                let d4 : ResourceData :=
                  { d3 with workflowSchema := schemaVal, workflowVersion := versionVal }
                { trace := trace, outcome := .ok (flattenAndSetTags resp.tags d4) }
              | _, _ => { trace := trace, outcome := .panic }
            | _ => { trace := trace, outcome := .ok (flattenAndSetTags resp.tags d3) }

/-- The `logic.Workflow` request body Create builds from the
configuration: normalized location, a definition document with exactly the
four fields `$schema` / `contentVersion` / `actions` / `triggers` (the
last two empty maps), the expanded parameters and the expanded tags. -/
def createWorkflowBody (d : ResourceData) : Workflow :=
  { id := none
    name := none
    location := some (azureRMNormalizeLocation d.location)
    workflowProperties := some
      { definition := some (GoValue.vmap
          [("$schema", GoValue.str d.workflowSchema),
           ("contentVersion", GoValue.str d.workflowVersion),
           ("actions", GoValue.vmap []),
           ("triggers", GoValue.vmap [])])
        parameters := expandLogicAppWorkflowParameters d.parameters
        accessEndpoint := none }
    tags := expandTags d.tags }

/-- `resourceArmLogicAppWorkflowCreate`, with the outcomes of its remote
calls supplied in program order: the `CreateOrUpdate`, the post-write
`Get`, and the `Get` of the delegated Read.  Any `CreateOrUpdate` or `Get`
failure (not-found included) is an error; a fetched object with a nil `ID`
is an error; otherwise the id is stored and Read is delegated to. -/
def resourceArmLogicAppWorkflowCreate (d : ResourceData)
    (createResult : Except RemoteFailure Workflow)
    (getResult : Except RemoteFailure Workflow)
    (readGetResult : Except RemoteFailure Workflow) : RunResult :=
  let name := d.name
  let resourceGroup := d.resourceGroupName
  let t1 := [RemoteCall.createOrUpdate resourceGroup name (createWorkflowBody d)]
  match createResult with
  | .error _ =>
    { trace := t1, outcome := .error (.remoteError "create" name resourceGroup) d }
  | .ok _ =>
    let t2 := t1 ++ [RemoteCall.get resourceGroup name]
    match getResult with
    | .error _ =>
      { trace := t2, outcome := .error (.remoteError "createRead" name resourceGroup) d }
    | .ok read =>
      match read.id with
      | none =>
        { trace := t2, outcome := .error (.remoteError "createMissingID" name resourceGroup) d }
      | some theId =>
        let r := resourceArmLogicAppWorkflowRead { d with id := theId } readGetResult
        { trace := t2 ++ r.trace, outcome := r.outcome }

/-- `resourceArmLogicAppWorkflowUpdate`, with the outcomes of its remote
calls supplied in program order: the pre-update `Get`, the
`CreateOrUpdate`, and the `Get` of the delegated Read.  After parsing the
id it takes the named lock (released by `defer` on every exit path, panics
included); a not-found pre-update fetch clears the id and returns nil, any
other fetch failure is an error; a fetched object with nil
`WorkflowProperties` aborts; otherwise the request reuses the fetched
definition verbatim with new location / parameters / tags. -/
def resourceArmLogicAppWorkflowUpdate (d : ResourceData)
    (getResult : Except RemoteFailure Workflow)
    (createResult : Except RemoteFailure Workflow)
    (readGetResult : Except RemoteFailure Workflow) : RunResult :=
  match parseAzureResourceID d.id with
  | .error e => { trace := [], outcome := .error e d }
  | .ok rid =>
    let resourceGroup := rid.resourceGroup
    let name := lookupStr rid.path "workflows"
    let lockEv := RemoteCall.lockByName name logicAppResourceName
    let unlockEv := RemoteCall.unlockByName name logicAppResourceName
    let t1 := [lockEv, RemoteCall.get resourceGroup name]
    match getResult with
    | .error RemoteFailure.notFound =>
      { trace := t1 ++ [unlockEv], outcome := .ok { d with id := "" } }
    | .error RemoteFailure.other =>
      { trace := t1 ++ [unlockEv]
        outcome := .error (.remoteError "updateRead" name resourceGroup) d }
    | .ok read =>
      match read.workflowProperties with
      | none =>
        { trace := t1 ++ [unlockEv], outcome := .error .nilWorkflowProperties d }
      | some readProps =>
        let body : Workflow :=
          { id := none
            name := none
            location := some (azureRMNormalizeLocation d.location)
            workflowProperties := some
              { definition := readProps.definition
                parameters := expandLogicAppWorkflowParameters d.parameters
                accessEndpoint := none }
            tags := expandTags d.tags }
        let t2 := t1 ++ [RemoteCall.createOrUpdate resourceGroup name body]
        match createResult with
        | .error _ =>
          { trace := t2 ++ [unlockEv]
            outcome := .error (.remoteError "update" name resourceGroup) d }
        | .ok _ =>
          let r := resourceArmLogicAppWorkflowRead d readGetResult
          { trace := t2 ++ r.trace ++ [unlockEv], outcome := r.outcome }

/-- `resourceArmLogicAppWorkflowDelete`, with the outcome of its `Delete`
call supplied.  After parsing the id it takes the named lock (released by
`defer` on every exit path); a not-found delete response is success; any
other failure is an error. -/
def resourceArmLogicAppWorkflowDelete (d : ResourceData)
    (deleteResult : Except RemoteFailure Unit) : RunResult :=
  match parseAzureResourceID d.id with
  | .error e => { trace := [], outcome := .error e d }
  | .ok rid =>
    let resourceGroup := rid.resourceGroup
    let name := lookupStr rid.path "workflows"
    let lockEv := RemoteCall.lockByName name logicAppResourceName
    let unlockEv := RemoteCall.unlockByName name logicAppResourceName
    let t := [lockEv, RemoteCall.delete resourceGroup name]
    match deleteResult with
    | .error RemoteFailure.notFound => { trace := t ++ [unlockEv], outcome := .ok d }
    | .error RemoteFailure.other =>
      { trace := t ++ [unlockEv]
        outcome := .error (.remoteError "delete" name resourceGroup) d }
    | .ok _ => { trace := t ++ [unlockEv], outcome := .ok d }

/-- The request bodies of the `CreateOrUpdate` calls in a trace, in
order. -/
def createOrUpdateBodies : List RemoteCall → List Workflow
  | [] => []
  | RemoteCall.createOrUpdate _ _ w :: rest => w :: createOrUpdateBodies rest
  | _ :: rest => createOrUpdateBodies rest

/-- A trace segment containing no lock or unlock event. -/
def lockFree (t : List RemoteCall) : Bool :=
  t.all (fun c =>
    match c with
    | RemoteCall.lockByName _ _ => false
    | RemoteCall.unlockByName _ _ => false
    | _ => true)

/-- The pair of strings the Read definition assertions require: `some`
exactly when both `$schema` and `contentVersion` are present in the
dynamic map with string values. -/
def schemaVersionStrings (entries : List (String × GoValue)) : Option (String × String) :=
  match entries.lookup "$schema", entries.lookup "contentVersion" with
  | some (GoValue.str a), some (GoValue.str b) => some (a, b)
  | _, _ => none

/-- Example resource data for a stored workflow id, used by concrete
instantiations below. -/
def exampleData : ResourceData :=
  { id := "/subscriptions/sub1/resourceGroups/rg1/providers/Microsoft.Logic/workflows/wf1"
    name := "wf1"
    resourceGroupName := "rg1"
    location := "West US"
    parameters := [("p1", "v1")]
    workflowSchema := defaultWorkflowSchema
    workflowVersion := defaultWorkflowVersion
    tags := [("env", "test")]
    accessEndpoint := none }

/-- The parse of `exampleData`'s id. -/
def exampleID : ResourceID :=
  { resourceGroup := "rg1"
    path := [("subscriptions", "sub1"), ("resourceGroups", "rg1"),
             ("providers", "Microsoft.Logic"), ("workflows", "wf1")] }

/-- An example remote workflow whose definition document is a dynamic map
that lacks the `$schema` field. -/
def exampleBadWorkflow : Workflow :=
  { id := some exampleData.id
    name := some "wf1"
    location := some "westus"
    workflowProperties := some
      { definition := some (GoValue.vmap [])
        parameters := []
        accessEndpoint := none }
    tags := [] }

/-- An example remote workflow whose definition document carries both
expected string fields. -/
def exampleGoodWorkflow : Workflow :=
  { id := some exampleData.id
    name := some "wf1"
    location := some "westus"
    workflowProperties := some
      { definition := some (GoValue.vmap
          [("$schema", GoValue.str "s2"), ("contentVersion", GoValue.str "2.0.0.0"),
           ("actions", GoValue.vmap []), ("triggers", GoValue.vmap [])])
        parameters := [("p1", some { type := ParameterType.string
                                     value := GoValue.str "v1" })]
        accessEndpoint := some "https://endpoint" }
    tags := [] }

end LogicApp

namespace LogicApp

/-- `createOrUpdateBodies` distributes over trace concatenation. -/
theorem createOrUpdateBodies_append (a b : List RemoteCall) :
    createOrUpdateBodies (a ++ b) = createOrUpdateBodies a ++ createOrUpdateBodies b := by
  induction a with
  | nil => rfl
  | cons c rest ih => cases c <;> simp [createOrUpdateBodies, ih]

/-- `lockFree` distributes over trace concatenation. -/
theorem lockFree_append (a b : List RemoteCall) :
    lockFree (a ++ b) = (lockFree a && lockFree b) := by
  simp [lockFree, List.all_append]

/-- The example id parses to the example resource group and path. -/
theorem exampleData_parse : parseAzureResourceID exampleData.id = .ok exampleID := rfl

/-- Read's trace is empty (id parse failure) or a single Get on the parsed
resource group and workflow name. -/
theorem read_trace_shape (d : ResourceData) (g : Except RemoteFailure Workflow) :
    (resourceArmLogicAppWorkflowRead d g).trace = [] ∨
    ∃ rid, parseAzureResourceID d.id = .ok rid ∧
      (resourceArmLogicAppWorkflowRead d g).trace =
        [RemoteCall.get rid.resourceGroup (lookupStr rid.path "workflows")] := by
  unfold resourceArmLogicAppWorkflowRead
  split
  · exact Or.inl rfl
  · rename_i rid heq
    refine Or.inr ⟨rid, heq, ?_⟩
    dsimp only
    repeat' split
    all_goals rfl

/-- Read issues no CreateOrUpdate and touches no lock. -/
theorem read_trace_passive (d : ResourceData) (g : Except RemoteFailure Workflow) :
    createOrUpdateBodies (resourceArmLogicAppWorkflowRead d g).trace = [] ∧
    lockFree (resourceArmLogicAppWorkflowRead d g).trace = true := by
  rcases read_trace_shape d g with h | ⟨rid, _, h⟩ <;>
    simp [h, createOrUpdateBodies, lockFree]

/-- C2: flattening the expansion of a string-keyed, string-valued mapping
yields the mapping back (and in particular never panics). -/
theorem flatten_expand_roundtrip (m : List (String × String)) :
    flattenLogicAppWorkflowParameters (expandLogicAppWorkflowParameters m) = some m := by
  induction m with
  | nil => rfl
  | cons kv rest ih =>
    simp [expandLogicAppWorkflowParameters, flattenLogicAppWorkflowParameters] at ih ⊢
    simp [ih]

/-- C1: for every workflow in present state (the pre-update fetch returns
an object with non-nil `WorkflowProperties`), Update sends exactly one
create-or-update request, whose definition document is exactly the
definition returned by the pre-update fetch (so the action and trigger
maps inside it are unchanged), while its location, parameters and tags
come from the new configuration. -/
theorem update_sends_fetched_definition_with_new_config
    (d : ResourceData) (rid : ResourceID)
    (hparse : parseAzureResourceID d.id = .ok rid)
    (w : Workflow) (props : WorkflowProperties)
    (hw : w.workflowProperties = some props)
    (createResult readGetResult : Except RemoteFailure Workflow) :
    createOrUpdateBodies
        (resourceArmLogicAppWorkflowUpdate d (.ok w) createResult readGetResult).trace =
      [{ id := none
         name := none
         location := some (azureRMNormalizeLocation d.location)
         workflowProperties := some
           { definition := props.definition
             parameters := expandLogicAppWorkflowParameters d.parameters
             accessEndpoint := none }
         tags := expandTags d.tags }] := by
  unfold resourceArmLogicAppWorkflowUpdate
  rw [hparse]
  dsimp only
  rw [hw]
  dsimp only
  rcases createResult with f | cw
  · simp [createOrUpdateBodies_append, createOrUpdateBodies]
  · have hpassive := (read_trace_passive d readGetResult).1
    simp [createOrUpdateBodies_append, createOrUpdateBodies, hpassive]

/-- C1 witness: a concrete instantiation of the frame theorem. -/
theorem update_sends_fetched_definition_with_new_config_witness :
    createOrUpdateBodies
        (resourceArmLogicAppWorkflowUpdate exampleData
          (.ok { id := some exampleData.id
                 name := some "wf1"
                 location := some "westus"
                 workflowProperties := some
                   { definition := some (GoValue.vmap [("actions", GoValue.other)])
                     parameters := []
                     accessEndpoint := none }
                 tags := [] })
          (.ok { id := none, name := none, location := none
                 workflowProperties := none, tags := [] })
          (.error RemoteFailure.notFound)).trace =
      [{ id := none
         name := none
         location := some (azureRMNormalizeLocation exampleData.location)
         workflowProperties := some
           { definition := some (GoValue.vmap [("actions", GoValue.other)])
             parameters := expandLogicAppWorkflowParameters exampleData.parameters
             accessEndpoint := none }
         tags := expandTags exampleData.tags }] :=
  update_sends_fetched_definition_with_new_config exampleData exampleID
    exampleData_parse _ _ rfl _ _

/-- C3: Create fails with a `RemoteError` exactly in three cases — the
create-or-update call errors, the post-write fetch errors (not-found
included), or the fetched object lacks an identifier; in every remaining
case it stores the fetched identifier as the resource id and its outcome
is exactly the outcome of Read delegated on that state.  The four
conjuncts are exhaustive over the remote outcomes. -/
theorem create_remote_error_cases (d : ResourceData)
    (createResult getResult readGetResult : Except RemoteFailure Workflow) :
    (∀ f, createResult = .error f →
      (resourceArmLogicAppWorkflowCreate d createResult getResult readGetResult).outcome =
        .error (.remoteError "create" d.name d.resourceGroupName) d) ∧
    (∀ w f, createResult = .ok w → getResult = .error f →
      (resourceArmLogicAppWorkflowCreate d createResult getResult readGetResult).outcome =
        .error (.remoteError "createRead" d.name d.resourceGroupName) d) ∧
    (∀ w r, createResult = .ok w → getResult = .ok r → r.id = none →
      (resourceArmLogicAppWorkflowCreate d createResult getResult readGetResult).outcome =
        .error (.remoteError "createMissingID" d.name d.resourceGroupName) d) ∧
    (∀ w r i, createResult = .ok w → getResult = .ok r → r.id = some i →
      (resourceArmLogicAppWorkflowCreate d createResult getResult readGetResult).outcome =
        (resourceArmLogicAppWorkflowRead { d with id := i } readGetResult).outcome) := by
  refine ⟨?_, ?_, ?_, ?_⟩
  · rintro f rfl
    rfl
  · rintro w f rfl rfl
    rfl
  · rintro w r rfl rfl hid
    unfold resourceArmLogicAppWorkflowCreate
    dsimp only
    rw [hid]
  · rintro w r i rfl rfl hid
    unfold resourceArmLogicAppWorkflowCreate
    dsimp only
    rw [hid]

/-- C3 witness: a concrete instantiation of the first error case and of
the delegation case. -/
theorem create_remote_error_cases_witness :
    (resourceArmLogicAppWorkflowCreate exampleData (.error .other)
        (.error .other) (.error .other)).outcome =
      .error (.remoteError "create" exampleData.name exampleData.resourceGroupName)
        exampleData ∧
    (resourceArmLogicAppWorkflowCreate exampleData
        (.ok { id := none, name := none, location := none
               workflowProperties := none, tags := [] })
        (.ok { id := some exampleData.id, name := none, location := none
               workflowProperties := none, tags := [] })
        (.error RemoteFailure.notFound)).outcome =
      (resourceArmLogicAppWorkflowRead { exampleData with id := exampleData.id }
        (.error RemoteFailure.notFound)).outcome :=
  ⟨(create_remote_error_cases exampleData _ _ _).1 _ rfl,
   (create_remote_error_cases exampleData _ _ _).2.2.2 _ _ _ rfl rfl rfl⟩

/-- C4: the remote object Create sends (for every configuration and every
remote behaviour, exactly one create-or-update request is sent) has a
definition document with exactly the four fields `$schema` (the
configured-or-default schema URL), `contentVersion` (the
configured-or-default version), and `actions` and `triggers` both empty
maps; its parameters are the expansion of the configured parameter map in
which every value is tagged with the string type. -/
theorem create_sends_four_field_definition (d : ResourceData)
    (createResult getResult readGetResult : Except RemoteFailure Workflow) :
    createOrUpdateBodies
        (resourceArmLogicAppWorkflowCreate d createResult getResult readGetResult).trace =
      [{ id := none
         name := none
         location := some (azureRMNormalizeLocation d.location)
         workflowProperties := some
           { definition := some (GoValue.vmap
               [("$schema", GoValue.str d.workflowSchema),
                ("contentVersion", GoValue.str d.workflowVersion),
                ("actions", GoValue.vmap []),
                ("triggers", GoValue.vmap [])])
             parameters :=
               d.parameters.map (fun kv =>
                 (kv.1, some { type := ParameterType.string
                               value := GoValue.str kv.2 }))
             accessEndpoint := none }
         tags := expandTags d.tags }] := by
  have hbody : createWorkflowBody d =
      { id := none
        name := none
        location := some (azureRMNormalizeLocation d.location)
        workflowProperties := some
          { definition := some (GoValue.vmap
              [("$schema", GoValue.str d.workflowSchema),
               ("contentVersion", GoValue.str d.workflowVersion),
               ("actions", GoValue.vmap []),
               ("triggers", GoValue.vmap [])])
            parameters :=
              d.parameters.map (fun kv =>
                (kv.1, some { type := ParameterType.string
                              value := GoValue.str kv.2 }))
            accessEndpoint := none }
        tags := expandTags d.tags } := rfl
  unfold resourceArmLogicAppWorkflowCreate
  dsimp only
  rcases createResult with f | cw
  · simp [createOrUpdateBodies, hbody]
  · rcases getResult with f | r
    · simp [createOrUpdateBodies_append, createOrUpdateBodies, hbody]
    · rcases hid : r.id with _ | i
      · simp [hid, createOrUpdateBodies_append, createOrUpdateBodies, hbody]
      · have hpassive := (read_trace_passive { d with id := i } readGetResult).1
        simp [hid, createOrUpdateBodies_append, createOrUpdateBodies, hbody, hpassive]

/-- C5: when Read's fetch reports not-found, Read clears the local id and
returns without error; any other fetch failure aborts Read with a
`RemoteError` carrying the parsed name and resource group, returning the
resource data unchanged (in particular the id is unchanged). -/
theorem read_not_found_clears_id_other_failures_error
    (d : ResourceData) (rid : ResourceID)
    (hparse : parseAzureResourceID d.id = .ok rid) :
    (resourceArmLogicAppWorkflowRead d (.error RemoteFailure.notFound)).outcome =
      .ok { d with id := "" } ∧
    (resourceArmLogicAppWorkflowRead d (.error RemoteFailure.other)).outcome =
      .error (.remoteError "read" (lookupStr rid.path "workflows") rid.resourceGroup) d := by
  unfold resourceArmLogicAppWorkflowRead
  rw [hparse]
  exact ⟨rfl, rfl⟩

/-- C5 witness: a concrete instantiation of both fetch-failure cases. -/
theorem read_not_found_clears_id_other_failures_error_witness :
    (resourceArmLogicAppWorkflowRead exampleData (.error RemoteFailure.notFound)).outcome =
      .ok { exampleData with id := "" } ∧
    (resourceArmLogicAppWorkflowRead exampleData (.error RemoteFailure.other)).outcome =
      .error (.remoteError "read" (lookupStr exampleID.path "workflows")
        exampleID.resourceGroup) exampleData :=
  read_not_found_clears_id_other_failures_error exampleData exampleID exampleData_parse

/-- C6: when Update's pre-update fetch reports not-found, Update clears
the local id and returns without error; any other fetch failure makes
Update return a `RemoteError` with the resource data unchanged, and in
both cases no create-or-update request is issued. -/
theorem update_not_found_clears_id_other_failures_error
    (d : ResourceData) (rid : ResourceID)
    (hparse : parseAzureResourceID d.id = .ok rid)
    (createResult readGetResult : Except RemoteFailure Workflow) :
    ((resourceArmLogicAppWorkflowUpdate d (.error RemoteFailure.notFound)
        createResult readGetResult).outcome = .ok { d with id := "" } ∧
     createOrUpdateBodies (resourceArmLogicAppWorkflowUpdate d
        (.error RemoteFailure.notFound) createResult readGetResult).trace = []) ∧
    ((resourceArmLogicAppWorkflowUpdate d (.error RemoteFailure.other)
        createResult readGetResult).outcome =
      .error (.remoteError "updateRead" (lookupStr rid.path "workflows")
        rid.resourceGroup) d ∧
     createOrUpdateBodies (resourceArmLogicAppWorkflowUpdate d
        (.error RemoteFailure.other) createResult readGetResult).trace = []) := by
  unfold resourceArmLogicAppWorkflowUpdate
  rw [hparse]
  exact ⟨⟨rfl, rfl⟩, rfl, rfl⟩

/-- C6 witness: a concrete instantiation of both pre-update fetch-failure
cases. -/
theorem update_not_found_clears_id_other_failures_error_witness :
    (resourceArmLogicAppWorkflowUpdate exampleData (.error RemoteFailure.notFound)
        (.error RemoteFailure.other) (.error RemoteFailure.other)).outcome =
      .ok { exampleData with id := "" } ∧
    (resourceArmLogicAppWorkflowUpdate exampleData (.error RemoteFailure.other)
        (.error RemoteFailure.other) (.error RemoteFailure.other)).outcome =
      .error (.remoteError "updateRead" (lookupStr exampleID.path "workflows")
        exampleID.resourceGroup) exampleData :=
  ⟨(update_not_found_clears_id_other_failures_error exampleData exampleID
      exampleData_parse _ _).1.1,
   (update_not_found_clears_id_other_failures_error exampleData exampleID
      exampleData_parse _ _).2.1⟩

/-- C7: Delete is idempotent — a not-found response from the remote delete
call is success without error; any other delete failure is returned as a
`RemoteError` carrying the parsed name and resource group. -/
theorem delete_idempotent_not_found
    (d : ResourceData) (rid : ResourceID)
    (hparse : parseAzureResourceID d.id = .ok rid) :
    (resourceArmLogicAppWorkflowDelete d (.error RemoteFailure.notFound)).outcome =
      .ok d ∧
    (resourceArmLogicAppWorkflowDelete d (.ok ())).outcome = .ok d ∧
    (resourceArmLogicAppWorkflowDelete d (.error RemoteFailure.other)).outcome =
      .error (.remoteError "delete" (lookupStr rid.path "workflows")
        rid.resourceGroup) d := by
  unfold resourceArmLogicAppWorkflowDelete
  rw [hparse]
  exact ⟨rfl, rfl, rfl⟩

/-- C7 witness: a concrete instantiation of the three delete outcomes. -/
theorem delete_idempotent_not_found_witness :
    (resourceArmLogicAppWorkflowDelete exampleData (.error RemoteFailure.notFound)).outcome =
      .ok exampleData ∧
    (resourceArmLogicAppWorkflowDelete exampleData (.ok ())).outcome = .ok exampleData ∧
    (resourceArmLogicAppWorkflowDelete exampleData (.error RemoteFailure.other)).outcome =
      .error (.remoteError "delete" (lookupStr exampleID.path "workflows")
        exampleID.resourceGroup) exampleData :=
  delete_idempotent_not_found exampleData exampleID exampleData_parse

/-- C10: when the pre-update fetch succeeds but the returned object
carries no workflow properties, Update aborts with the
nil-`WorkflowProperties` error before sending any create-or-update call,
and the resource data (the local identity included) is returned
unchanged. -/
theorem update_nil_properties_aborts
    (d : ResourceData) (rid : ResourceID)
    (hparse : parseAzureResourceID d.id = .ok rid)
    (w : Workflow) (hw : w.workflowProperties = none)
    (createResult readGetResult : Except RemoteFailure Workflow) :
    (resourceArmLogicAppWorkflowUpdate d (.ok w) createResult readGetResult).outcome =
      .error .nilWorkflowProperties d ∧
    createOrUpdateBodies
      (resourceArmLogicAppWorkflowUpdate d (.ok w) createResult readGetResult).trace = [] := by
  unfold resourceArmLogicAppWorkflowUpdate
  rw [hparse]
  dsimp only
  rw [hw]
  exact ⟨rfl, rfl⟩

/-- C10 witness: a concrete instantiation of the nil-properties abort. -/
theorem update_nil_properties_aborts_witness :
    (resourceArmLogicAppWorkflowUpdate exampleData
        (.ok { id := some exampleData.id, name := some "wf1", location := none
               workflowProperties := none, tags := [] })
        (.error RemoteFailure.other) (.error RemoteFailure.other)).outcome =
      .error .nilWorkflowProperties exampleData :=
  (update_nil_properties_aborts exampleData exampleID exampleData_parse
    _ rfl _ _).1

/-- C9: Update and Delete follow the same lock discipline — whatever the
remote outcomes, each trace starts by acquiring the process-wide named
lock keyed by the parsed workflow name (scoped to `logicAppResourceName`),
before any remote call, and ends by releasing that same lock, with no
other lock activity in between; hence runs of Update and Delete on the
same workflow name are serialized and never interleave. -/
theorem update_delete_lock_discipline
    (d : ResourceData) (rid : ResourceID)
    (hparse : parseAzureResourceID d.id = .ok rid)
    (getResult createResult readGetResult : Except RemoteFailure Workflow)
    (deleteResult : Except RemoteFailure Unit) :
    (∃ mid,
      (resourceArmLogicAppWorkflowUpdate d getResult createResult readGetResult).trace =
        RemoteCall.lockByName (lookupStr rid.path "workflows") logicAppResourceName ::
          (mid ++ [RemoteCall.unlockByName (lookupStr rid.path "workflows")
            logicAppResourceName]) ∧
      lockFree mid = true) ∧
    (∃ mid,
      (resourceArmLogicAppWorkflowDelete d deleteResult).trace =
        RemoteCall.lockByName (lookupStr rid.path "workflows") logicAppResourceName ::
          (mid ++ [RemoteCall.unlockByName (lookupStr rid.path "workflows")
            logicAppResourceName]) ∧
      lockFree mid = true) := by
  constructor
  · unfold resourceArmLogicAppWorkflowUpdate
    rw [hparse]
    dsimp only
    rcases getResult with f | w
    · rcases f
      · exact ⟨[RemoteCall.get rid.resourceGroup
          (lookupStr rid.path "workflows")], rfl, rfl⟩
      · exact ⟨[RemoteCall.get rid.resourceGroup
          (lookupStr rid.path "workflows")], rfl, rfl⟩
    · dsimp only
      rcases hw : w.workflowProperties with _ | props
      · exact ⟨[RemoteCall.get rid.resourceGroup
          (lookupStr rid.path "workflows")], rfl, rfl⟩
      · dsimp only
        rcases createResult with f | cw
        · exact ⟨[RemoteCall.get rid.resourceGroup (lookupStr rid.path "workflows"),
            RemoteCall.createOrUpdate rid.resourceGroup (lookupStr rid.path "workflows")
              { id := none
                name := none
                location := some (azureRMNormalizeLocation d.location)
                workflowProperties := some
                  { definition := props.definition
                    parameters := expandLogicAppWorkflowParameters d.parameters
                    accessEndpoint := none }
                tags := expandTags d.tags }], rfl, rfl⟩
        · have hpassive := (read_trace_passive d readGetResult).2
          refine ⟨RemoteCall.get rid.resourceGroup (lookupStr rid.path "workflows") ::
            RemoteCall.createOrUpdate rid.resourceGroup (lookupStr rid.path "workflows")
              { id := none
                name := none
                location := some (azureRMNormalizeLocation d.location)
                workflowProperties := some
                  { definition := props.definition
                    parameters := expandLogicAppWorkflowParameters d.parameters
                    accessEndpoint := none }
                tags := expandTags d.tags } ::
            (resourceArmLogicAppWorkflowRead d readGetResult).trace, ?_, ?_⟩
          · simp
          · simp only [lockFree, List.all_cons] at hpassive ⊢
            simp [hpassive]
  · unfold resourceArmLogicAppWorkflowDelete
    rw [hparse]
    dsimp only
    rcases deleteResult with f | u
    · rcases f
      · exact ⟨[RemoteCall.delete rid.resourceGroup
          (lookupStr rid.path "workflows")], rfl, rfl⟩
      · exact ⟨[RemoteCall.delete rid.resourceGroup
          (lookupStr rid.path "workflows")], rfl, rfl⟩
    · exact ⟨[RemoteCall.delete rid.resourceGroup
        (lookupStr rid.path "workflows")], rfl, rfl⟩

/-- C9 witness: a concrete instantiation of the lock discipline. -/
theorem update_delete_lock_discipline_witness :
    (∃ mid,
      (resourceArmLogicAppWorkflowUpdate exampleData (.error RemoteFailure.other)
          (.error RemoteFailure.other) (.error RemoteFailure.other)).trace =
        RemoteCall.lockByName (lookupStr exampleID.path "workflows")
            logicAppResourceName ::
          (mid ++ [RemoteCall.unlockByName (lookupStr exampleID.path "workflows")
            logicAppResourceName]) ∧
      lockFree mid = true) ∧
    (∃ mid,
      (resourceArmLogicAppWorkflowDelete exampleData (.error RemoteFailure.other)).trace =
        RemoteCall.lockByName (lookupStr exampleID.path "workflows")
            logicAppResourceName ::
          (mid ++ [RemoteCall.unlockByName (lookupStr exampleID.path "workflows")
            logicAppResourceName]) ∧
      lockFree mid = true) :=
  update_delete_lock_discipline exampleData exampleID exampleData_parse
    (.error RemoteFailure.other) (.error RemoteFailure.other)
    (.error RemoteFailure.other) (.error RemoteFailure.other)

/-- C8 counterexample: the claim says Read completes without failure when
`$schema` / `contentVersion` are absent, but on a fetched object whose
definition document is a dynamic map without those fields, Read panics
(Go: `v["$schema"].(string)` is an unchecked assertion on a nil interface
value). -/
theorem read_missing_schema_field_panics :
    (resourceArmLogicAppWorkflowRead exampleData (.ok exampleBadWorkflow)).outcome =
      Outcome.panic := rfl

/-- C8 amended: Read populates the schema and version attributes exactly
when the definition document is a dynamic map carrying `$schema` and
`contentVersion` as string fields; when the definition is absent, or some
non-map value, Read completes without panic leaving schema and version
unchanged; but when the definition is a map in which either field is
absent or non-string, Read panics (all under a parseable id and parameters
that flatten without panic). -/
theorem read_schema_version_guarded
    (d : ResourceData) (rid : ResourceID)
    (hparse : parseAzureResourceID d.id = .ok rid)
    (resp : Workflow) (props : WorkflowProperties)
    (hw : resp.workflowProperties = some props)
    (ps : List (String × String))
    (hflat : flattenLogicAppWorkflowParameters props.parameters = some ps) :
    (∀ entries a b, props.definition = some (GoValue.vmap entries) →
      schemaVersionStrings entries = some (a, b) →
      ∃ d2, (resourceArmLogicAppWorkflowRead d (.ok resp)).outcome = .ok d2 ∧
        d2.workflowSchema = a ∧ d2.workflowVersion = b) ∧
    (∀ entries, props.definition = some (GoValue.vmap entries) →
      schemaVersionStrings entries = none →
      (resourceArmLogicAppWorkflowRead d (.ok resp)).outcome = Outcome.panic) ∧
    (props.definition = none →
      ∃ d2, (resourceArmLogicAppWorkflowRead d (.ok resp)).outcome = .ok d2 ∧
        d2.workflowSchema = d.workflowSchema ∧
        d2.workflowVersion = d.workflowVersion) ∧
    (∀ v, props.definition = some v → (∀ entries, v ≠ GoValue.vmap entries) →
      ∃ d2, (resourceArmLogicAppWorkflowRead d (.ok resp)).outcome = .ok d2 ∧
        d2.workflowSchema = d.workflowSchema ∧
        d2.workflowVersion = d.workflowVersion) := by
  rcases resp with ⟨wid, wname, wloc, wprops, wtags⟩
  dsimp only at hw
  subst hw
  refine ⟨?_, ?_, ?_, ?_⟩
  · intro entries a b hdef hsv
    unfold schemaVersionStrings at hsv
    split at hsv
    · rename_i a1 b1 heq1 heq2
      rcases hsv with ⟨rfl, rfl⟩
      unfold resourceArmLogicAppWorkflowRead
      rw [hparse]
      dsimp only
      rw [hflat]
      dsimp only
      rw [hdef]
      dsimp only
      rw [heq1, heq2]
      exact ⟨_, rfl, rfl, rfl⟩
    · exact absurd hsv (by simp)
  · intro entries hdef hsv
    unfold resourceArmLogicAppWorkflowRead
    rw [hparse]
    dsimp only
    rw [hflat]
    dsimp only
    rw [hdef]
    dsimp only
    split
    · rename_i a1 b1 heq1 heq2
      unfold schemaVersionStrings at hsv
      rw [heq1, heq2] at hsv
      simp at hsv
    · rfl
  · intro hdef
    unfold resourceArmLogicAppWorkflowRead
    rw [hparse]
    dsimp only
    rw [hflat]
    dsimp only
    rw [hdef]
    rcases wloc with _ | loc
    · exact ⟨_, rfl, rfl, rfl⟩
    · exact ⟨_, rfl, rfl, rfl⟩
  · intro v hdef hnm
    unfold resourceArmLogicAppWorkflowRead
    rw [hparse]
    dsimp only
    rw [hflat]
    dsimp only
    rw [hdef]
    rcases v with s | entries | _
    · rcases wloc with _ | loc
      · exact ⟨_, rfl, rfl, rfl⟩
      · exact ⟨_, rfl, rfl, rfl⟩
    · exact absurd rfl (hnm entries)
    · rcases wloc with _ | loc
      · exact ⟨_, rfl, rfl, rfl⟩
      · exact ⟨_, rfl, rfl, rfl⟩

/-- C8 witness: on a fetched object carrying both expected string fields,
Read succeeds and populates the schema and version attributes from the
definition document. -/
theorem read_schema_version_guarded_witness :
    ∃ d2, (resourceArmLogicAppWorkflowRead exampleData (.ok exampleGoodWorkflow)).outcome =
        .ok d2 ∧
      d2.workflowSchema = "s2" ∧ d2.workflowVersion = "2.0.0.0" :=
  (read_schema_version_guarded exampleData exampleID exampleData_parse
      exampleGoodWorkflow
      { definition := some (GoValue.vmap
          [("$schema", GoValue.str "s2"), ("contentVersion", GoValue.str "2.0.0.0"),
           ("actions", GoValue.vmap []), ("triggers", GoValue.vmap [])])
        parameters := [("p1", some { type := ParameterType.string
                                     value := GoValue.str "v1" })]
        accessEndpoint := some "https://endpoint" }
      rfl [("p1", "v1")] rfl).1
    [("$schema", GoValue.str "s2"), ("contentVersion", GoValue.str "2.0.0.0"),
     ("actions", GoValue.vmap []), ("triggers", GoValue.vmap [])]
    "s2" "2.0.0.0" rfl rfl

end LogicApp
